import Mathlib

/-!
Shallow embedding of the goproxy-cache core (src/examples/goproxy-cache/main.go):
a write-through cache for Docker registry blobs.  The in-memory cache map
`cache : map[string]int` becomes `Index : String → Nat` (Go map reads default to
0 = EMPTY), file-system effects become an explicit `FS` record threaded through
the handlers, and the `cacheTeeReader` becomes a pure state-transition function
on a `TeeReaderState`.
-/

namespace GoproxyCache

/-! ### Cache entry states (main.go lines 20-25) -/

/-- Constant EMPTY = 0 from main.go. -/
def EMPTY : Nat := 0

/-- Constant AVAILABLE = 1 from main.go. -/
def AVAILABLE : Nat := 1

/-- Constant IN_PROGRESS = 2 from main.go. -/
def IN_PROGRESS : Nat := 2

/-- The in-memory cache index: Go's `cache map[string]int`.  A Go map read
returns the zero value 0 = EMPTY for absent keys, so the map is modelled as a
total function. -/
def Index : Type := String → Nat

/-- `cache[k] = s`: pointwise update of the index. -/
def updateIndex (idx : Index) (k : String) (s : Nat) : Index :=
  fun q => if q = k then s else idx q

/-- `cache = make(map[string]int)`: the fresh, empty index (every key EMPTY). -/
def emptyIndex : Index := fun _ => EMPTY

/-- `cache[tee.shaname] = AVAILABLE` (main.go line 87). -/
def markAvailable (idx : Index) (k : String) : Index :=
  updateIndex idx k AVAILABLE

/-! ### Key classifier (main.go lines 28, 122-132)

The regexp `/registry-v2/docker/registry/v2/blobs/sha256/../(?P<shaname>[^/]+)/`
is modelled directly on character lists: a literal marker, two arbitrary
non-newline characters, a slash, a nonempty run of non-slash characters
(the captured shaname), and a closing slash.  `FindStringSubmatch` finds the
leftmost match; with this pattern the match at a given start position is
deterministic, so a left-to-right scan is faithful. -/

/-- The literal part of the blob-path regexp, as characters. -/
def blobMarker : List Char :=
  String.data "/registry-v2/docker/registry/v2/blobs/sha256/"

/-- Try to match the blob regexp starting exactly at the head of `cs`;
returns the captured shaname on success. -/
def tryMatchAt (cs : List Char) : Option (List Char) :=
  if blobMarker.isPrefixOf cs then
    match cs.drop blobMarker.length with
    | c1 :: c2 :: '/' :: rest =>
      if c1 = '\n' ∨ c2 = '\n' then none
      else
        let name := rest.takeWhile (fun c => c ≠ '/')
        if name.isEmpty then none
        else
          match rest.drop name.length with
          | '/' :: _ => some name
          | _ => none
    | _ => none
  else none

/-- Leftmost-match scan over all start positions. -/
def scanShaname : List Char → Option (List Char)
  | [] => none
  | c :: cs =>
    match tryMatchAt (c :: cs) with
    | some name => some name
    | none => scanShaname cs

/-- `shouldBeCached` (main.go lines 122-132): returns "" or the layer name. -/
def shouldBeCached (urlpath : String) : String :=
  match scanShaname urlpath.data with
  | some name => String.mk name
  | none => ""

/-! ### File-system model

Files are byte lists keyed by full path.  `os.Create`, `os.Open` and `os.Stat`
can fail for reasons beyond absence (permissions, disk faults), modelled by
the three failure predicates. -/

/-- The file-system state visible to the handlers. -/
structure FS where
  files : String → Option (List Nat)
  createFails : String → Bool
  openFails : String → Bool
  statFails : String → Bool

/-- `os.Open(fname)`: succeeds with the contents iff the file exists and no
open fault is injected. -/
def fsOpen (fs : FS) (fname : String) : Option (List Nat) :=
  if fs.openFails fname then none else fs.files fname

/-- `os.Stat(fname).Size()`: the file's size, or failure. -/
def fsStat (fs : FS) (fname : String) : Option Nat :=
  if fs.statFails fname then none else (fs.files fname).map List.length

/-- `os.Create(fname)`: truncate/create the file empty; fails iff a create
fault is injected, leaving the file system unchanged. -/
def fsCreate (fs : FS) (fname : String) : Option FS :=
  if fs.createFails fname then none
  else some { fs with files := fun q => if q = fname then some [] else fs.files q }

/-! ### HTTP request/response model (only the fields the core touches) -/

/-- The parts of `*http.Request` the handlers read. -/
structure Request where
  urlPath : String
  transferEncoding : List String
deriving DecidableEq

/-- A response body: either the raw bytes of a cache file served through
`ioutil.NopCloser`, an opaque upstream stream, or an upstream stream wrapped
in a `cacheTeeReader`. -/
inductive Body where
  | fileBytes (bs : List Nat)
  | stream (tag : Nat)
  | tee (shaname fname : String) (inner : Body)
deriving DecidableEq

/-- The parts of `*http.Response` the handlers touch (main.go lines 176-183). -/
structure Response where
  statusCode : Nat
  request : Request
  transferEncoding : List String
  headers : List (String × String)
  contentLength : Nat
  body : Body
deriving DecidableEq

/-! ### cacheTeeReader (main.go lines 34-91) -/

/-- The mutable state of a `cacheTeeReader`: its key, backing file name, the
bytes persisted so far in the backing file, whether the file was closed, and
the running counters. -/
structure TeeReaderState where
  shaname : String
  fname : String
  fileContents : List Nat
  fileClosed : Bool
  nbread : Nat
  nbwritten : Nat
deriving DecidableEq

/-- `cacheTeeReader.Read` (main.go lines 67-81).  One call is modelled by the
outcome of the single wrapped `tee.body.Read(p)` it performs: `chunk` is the
bytes that read placed in `p` (so `nread = chunk.length`) and `err` its error.
`diskN` is the byte count returned by `tee.f.Write(p[:nread])` and `diskErr`
whether that write reported an error (the code only logs it).  Returns the
updated tee state and the `(n, bytes-in-buffer, err)` triple handed to the
caller. -/
def teeRead (tee : TeeReaderState) (chunk : List Nat) (err : Option String)
    (diskN : Nat) (diskErr : Bool) : TeeReaderState × Nat × List Nat × Option String :=
  let nread := chunk.length
  let tee1 := { tee with nbread := tee.nbread + nread }
  if nread > 0 then
    let _ := diskErr
    let tee2 := { tee1 with
      nbwritten := tee1.nbwritten + diskN,
      fileContents := tee1.fileContents ++ chunk.take diskN }
    (tee2, nread, chunk, err)
  else (tee1, nread, chunk, err)

/-- `cacheTeeReader.Close` (main.go lines 83-91): close the backing file, set
`cache[tee.shaname] = AVAILABLE`, return nil. -/
def teeClose (tee : TeeReaderState) (idx : Index) :
    TeeReaderState × Index × Option String :=
  ({ tee with fileClosed := true }, markAvailable idx tee.shaname, none)

/-- `newCacheTeeReader` (main.go lines 44-65): create the backing file
`cachedir + shaname`; on failure return an error (caller keeps the original
body), on success return the updated file system and the wrapped body. -/
def newCacheTeeReader (cachedir shaname : String) (fs : FS) (body : Body) :
    FS × Option Body :=
  let fname := cachedir ++ shaname
  match fsCreate fs fname with
  | none => (fs, none)
  | some fs1 => (fs1, some (Body.tee shaname fname body))

/-! ### Request Gate: CacheReqHandler (main.go lines 144-193)

The poll loop `for in_cache == IN_PROGRESS { Unlock; Sleep; Lock; re-read }`
waits for another goroutine; under the sequential semantics modelled here no
other thread runs, so a call observing IN_PROGRESS never returns, modelled as
`none`.  On every returning path the Go code hands back the request pointer
unchanged, so the request is part of the result. -/

/-- `CacheReqHandler`: returns `none` when the call blocks forever on an
IN_PROGRESS key, otherwise `some (request, updated index, short-circuit
response or none)`. -/
def cacheReqHandler (cachedir : String) (idx : Index) (fs : FS) (req : Request) :
    Option (Request × Index × Option Response) :=
  let shaname := shouldBeCached req.urlPath
  if shaname = "" then some (req, idx, none)
  else
    let in_cache := idx shaname
    if in_cache = IN_PROGRESS then none
    else if in_cache = AVAILABLE then
      match fsOpen fs (cachedir ++ shaname) with
      | none => some (req, idx, none)
      | some contents =>
        match fsStat fs (cachedir ++ shaname) with
        | none => some (req, idx, none)
        | some size =>
          some (req, idx, some {
            statusCode := 200,
            request := req,
            transferEncoding := req.transferEncoding,
            headers := [("Content-Type", "application/octet-stream")],
            contentLength := size,
            body := Body.fileBytes contents })
    else some (req, updateIndex idx shaname IN_PROGRESS, none)

/-! ### Response Gate: CacheRespHandler (main.go lines 195-225) -/

/-- `CacheRespHandler`: returns the (unchanged) index, the possibly updated
file system (a backing file may have been created), and the response, whose
body may have been swapped for a tee wrapper. -/
def cacheRespHandler (cachedir : String) (idx : Index) (fs : FS) (resp : Response) :
    Index × FS × Response :=
  if resp.statusCode ≠ 200 then (idx, fs, resp)
  else
    let shaname := shouldBeCached resp.request.urlPath
    if shaname = "" then (idx, fs, resp)
    else
      let in_cache := idx shaname
      if in_cache = AVAILABLE then (idx, fs, resp)
      else
        match newCacheTeeReader cachedir shaname fs resp.body with
        | (fs1, some teeBody) => (idx, fs1, { resp with body := teeBody })
        | (fs1, none) => (idx, fs1, resp)

/-! ### Startup scan: cacheInit (main.go lines 93-120) -/

/-- `strings.HasSuffix` normalization of the cache directory
(main.go lines 95-97). -/
def normalizeCachedir (d : String) : String :=
  if d.endsWith "/" then d else d ++ "/"

/-- The Store directory as seen by `cacheInit`: whether `os.Stat` reports an
existing directory, whether `os.Mkdir` would fail, whether `ioutil.ReadDir`
would fail, and the names of the files it lists. -/
structure StoreDir where
  dirExists : Bool
  mkdirFails : Bool
  readDirFails : Bool
  entries : List String
deriving DecidableEq

/-- The `for _, file := range files { cache[file.Name()] = AVAILABLE }` loop
applied to a fresh map. -/
def loadIndex (entries : List String) : Index :=
  entries.foldl (fun idx name => updateIndex idx name AVAILABLE) emptyIndex

/-- `cacheInit`: create the Store directory if absent, enumerate it, and
populate a fresh index with every listed file name as AVAILABLE.  `none`
models `log.Fatal` (process exit). -/
def cacheInit (store : StoreDir) : Option (StoreDir × Index) :=
  if store.dirExists then
    if store.readDirFails then none
    else some (store, loadIndex store.entries)
  else if store.mkdirFails then none
  else
    let store1 := { store with dirExists := true, entries := ([] : List String) }
    if store1.readDirFails then none
    else some (store1, loadIndex store1.entries)

/-! ### State ordering for the forward-only invariant -/

/-- Rank of a cache state in the progression EMPTY → IN_PROGRESS → AVAILABLE;
any value the code never stores counts as the bottom rank. -/
def stateRank (s : Nat) : Nat :=
  if s = AVAILABLE then 2 else if s = IN_PROGRESS then 1 else 0

/-! ### Concrete instances used by the witnesses -/

/-- A cacheable request whose path classifies to the key "abc123". -/
def reqW : Request :=
  { urlPath := "/registry-v2/docker/registry/v2/blobs/sha256/ab/abc123/",
    transferEncoding := [] }

/-- A file system with no files and no injected faults. -/
def fsEmptyW : FS :=
  { files := fun _ => none, createFails := fun _ => false,
    openFails := fun _ => false, statFails := fun _ => false }

/-- An index where "abc123" is AVAILABLE. -/
def idxAvailW : Index := updateIndex emptyIndex "abc123" AVAILABLE

/-- An index where "abc123" is IN_PROGRESS. -/
def idxProgW : Index := updateIndex emptyIndex "abc123" IN_PROGRESS

/-- A fault-free file system holding the cached blob for "abc123". -/
def fsAvailW : FS :=
  { files := fun q => if q = "/tmp/proxy/abc123" then some [3, 1, 4] else none,
    createFails := fun _ => false, openFails := fun _ => false,
    statFails := fun _ => false }

/-- A file system where creating the backing file for "abc123" fails. -/
def fsCreateFailW : FS :=
  { files := fun _ => none, createFails := fun q => q == "/tmp/proxy/abc123",
    openFails := fun _ => false, statFails := fun _ => false }

/-- A fresh tee-reader state for "abc123". -/
def teeW : TeeReaderState :=
  { shaname := "abc123", fname := "/tmp/proxy/abc123", fileContents := [],
    fileClosed := false, nbread := 0, nbwritten := 0 }

/-- A tee-reader state where fewer bytes were persisted than read. -/
def teeShortW : TeeReaderState :=
  { shaname := "abc123", fname := "/tmp/proxy/abc123", fileContents := [10],
    fileClosed := false, nbread := 2, nbwritten := 1 }

/-- A non-success upstream response for the cacheable request. -/
def resp404W : Response :=
  { statusCode := 404, request := reqW, transferEncoding := [], headers := [],
    contentLength := 0, body := Body.stream 0 }

/-- A success upstream response for the cacheable request. -/
def resp200W : Response :=
  { statusCode := 200, request := reqW, transferEncoding := [], headers := [],
    contentLength := 0, body := Body.stream 0 }

/-- A Store directory that is absent at startup, with no injected faults. -/
def storeAbsentW : StoreDir :=
  { dirExists := false, mkdirFails := false, readDirFails := false, entries := [] }

/-- A Store directory present at startup and holding two blob files. -/
def storePresentW : StoreDir :=
  { dirExists := true, mkdirFails := false, readDirFails := false,
    entries := ["abc123", "def456"] }

/-! ### Helper lemmas -/

/-- Every cache state has rank at most 2. -/
theorem stateRank_le_two (s : Nat) : stateRank s ≤ 2 := by
  unfold stateRank
  split
  · exact Nat.le_refl 2
  · split
    · omega
    · omega

/-- The Response Gate never writes the index. -/
theorem cacheRespHandler_index_unchanged (cachedir : String) (idx : Index)
    (fs : FS) (resp : Response) :
    (cacheRespHandler cachedir idx fs resp).1 = idx := by
  unfold cacheRespHandler newCacheTeeReader
  dsimp only
  repeat' split
  all_goals rfl

/-- Any returning Request Gate call moves each key's state forward and
preserves AVAILABLE. -/
theorem cacheReqHandler_index_monotone (cachedir : String) (idx : Index)
    (fs : FS) (req : Request) (req' : Request) (idx' : Index) (r : Option Response)
    (h : cacheReqHandler cachedir idx fs req = some (req', idx', r)) (k : String) :
    stateRank (idx k) ≤ stateRank (idx' k) ∧
      (idx k = AVAILABLE → idx' k = AVAILABLE) := by
  unfold cacheReqHandler at h
  dsimp only at h
  split at h
  · simp only [Option.some.injEq, Prod.mk.injEq] at h
    rw [← h.2.1]
    exact ⟨Nat.le_refl _, fun hv => hv⟩
  · split at h
    · exact absurd h (by simp)
    · split at h
      · rcases hop : fsOpen fs (cachedir ++ shouldBeCached req.urlPath) with _ | contents
        · rw [hop] at h
          simp only [Option.some.injEq, Prod.mk.injEq] at h
          rw [← h.2.1]
          exact ⟨Nat.le_refl _, fun hv => hv⟩
        · rw [hop] at h
          rcases hst : fsStat fs (cachedir ++ shouldBeCached req.urlPath) with _ | size
          · rw [hst] at h
            simp only [Option.some.injEq, Prod.mk.injEq] at h
            rw [← h.2.1]
            exact ⟨Nat.le_refl _, fun hv => hv⟩
          · rw [hst] at h
            simp only [Option.some.injEq, Prod.mk.injEq] at h
            rw [← h.2.1]
            exact ⟨Nat.le_refl _, fun hv => hv⟩
      · rename_i hnip hnav
        simp only [Option.some.injEq, Prod.mk.injEq] at h
        rw [← h.2.1]
        by_cases hk : k = shouldBeCached req.urlPath
        · rw [hk]
          have hupd : updateIndex idx (shouldBeCached req.urlPath) IN_PROGRESS
              (shouldBeCached req.urlPath) = IN_PROGRESS := by
            simp [updateIndex]
          rw [hupd]
          refine ⟨?_, fun hav => absurd hav hnav⟩
          have hz : stateRank (idx (shouldBeCached req.urlPath)) = 0 := by
            unfold stateRank
            rw [if_neg hnav, if_neg hnip]
          rw [hz]
          exact Nat.zero_le _
        · have hupd : updateIndex idx (shouldBeCached req.urlPath) IN_PROGRESS k = idx k := by
            simp [updateIndex, hk]
          rw [hupd]
          exact ⟨Nat.le_refl _, fun hv => hv⟩

/-- Folding the AVAILABLE-insertion loop over any starting index yields
AVAILABLE exactly on the listed names. -/
theorem loadIndex_foldl (es : List String) (idx : Index) (k : String) :
    (es.foldl (fun i n => updateIndex i n AVAILABLE) idx) k
      = if k ∈ es then AVAILABLE else idx k := by
  induction es generalizing idx with
  | nil => simp
  | cons e es ih =>
    rw [List.foldl_cons, ih]
    by_cases hk : k ∈ es
    · simp [hk]
    · by_cases he : k = e
      · simp [hk, he, updateIndex]
      · simp [hk, he, updateIndex]

/-- The startup loop maps exactly the listed file names to AVAILABLE. -/
theorem loadIndex_spec (es : List String) (k : String) :
    loadIndex es k = if k ∈ es then AVAILABLE else EMPTY :=
  loadIndex_foldl es emptyIndex k

/-! ### Claim theorems -/

/-- Claim C1: for every cache key not present in the Index (state EMPTY), the
first Request Gate call for that key returns no short-circuit response (the
request proceeds to upstream unmodified) and, immediately after the call, the
Index maps that key to IN_PROGRESS. -/
theorem requestGate_empty_no_shortcircuit (cachedir : String) (idx : Index)
    (fs : FS) (req : Request) (shaname : String)
    (hsha : shouldBeCached req.urlPath = shaname) (hne : shaname ≠ "")
    (hempty : idx shaname = EMPTY) :
    cacheReqHandler cachedir idx fs req =
      some (req, updateIndex idx shaname IN_PROGRESS, none) ∧
    (updateIndex idx shaname IN_PROGRESS) shaname = IN_PROGRESS := by
  constructor
  · unfold cacheReqHandler
    rw [hsha]
    simp [hne, hempty, EMPTY, IN_PROGRESS, AVAILABLE]
  · simp [updateIndex]

/-- Witness for C1: a first request for the fresh key "abc123" is not
short-circuited and leaves the key IN_PROGRESS. -/
theorem requestGate_empty_no_shortcircuit_witness :
    cacheReqHandler "/tmp/proxy/" emptyIndex fsEmptyW reqW =
      some (reqW, updateIndex emptyIndex "abc123" IN_PROGRESS, none) ∧
    (updateIndex emptyIndex "abc123" IN_PROGRESS) "abc123" = IN_PROGRESS :=
  requestGate_empty_no_shortcircuit "/tmp/proxy/" emptyIndex fsEmptyW reqW
    "abc123" (by decide) (by decide) rfl

/-- Claim C2: for every cache key whose Index state is AVAILABLE and whose
backing file can be opened and stat'd, a Request Gate call short-circuits the
upstream fetch and returns a synthetic response with status 200, header
Content-Type: application/octet-stream, Content-Length equal to the backing
file's size, and a body whose bytes are exactly the file's contents. -/
theorem requestGate_available_serves_file (cachedir : String) (idx : Index)
    (fs : FS) (req : Request) (shaname : String) (contents : List Nat)
    (hsha : shouldBeCached req.urlPath = shaname) (hne : shaname ≠ "")
    (havail : idx shaname = AVAILABLE)
    (hfile : fs.files (cachedir ++ shaname) = some contents)
    (hopen : fs.openFails (cachedir ++ shaname) = false)
    (hstat : fs.statFails (cachedir ++ shaname) = false) :
    cacheReqHandler cachedir idx fs req =
      some (req, idx, some {
        statusCode := 200,
        request := req,
        transferEncoding := req.transferEncoding,
        headers := [("Content-Type", "application/octet-stream")],
        contentLength := contents.length,
        body := Body.fileBytes contents }) := by
  unfold cacheReqHandler
  rw [hsha]
  simp [hne, havail, fsOpen, fsStat, hfile, hopen, hstat, AVAILABLE, IN_PROGRESS]

/-- Witness for C2: the AVAILABLE key "abc123" backed by the file [3, 1, 4]
is served as a synthetic response of length 3 with those bytes. -/
theorem requestGate_available_serves_file_witness :
    cacheReqHandler "/tmp/proxy/" idxAvailW fsAvailW reqW =
      some (reqW, idxAvailW, some {
        statusCode := 200,
        request := reqW,
        transferEncoding := [],
        headers := [("Content-Type", "application/octet-stream")],
        contentLength := 3,
        body := Body.fileBytes [3, 1, 4] }) :=
  requestGate_available_serves_file "/tmp/proxy/" idxAvailW fsAvailW reqW
    "abc123" [3, 1, 4] (by decide) (by decide) (by decide) (by decide)
    (by decide) (by decide)

/-- Claim C3: for every key and every operation of the core (Request Gate,
Response Gate, Writer Close, startup scan), the Index state for that key only
moves forward in the order EMPTY → IN_PROGRESS → AVAILABLE: no operation ever
sets a key back to EMPTY (lowers its rank), and once a key is AVAILABLE no
operation moves it to any other state.  The startup scan starts from a fresh
empty map, so its pre-state is `emptyIndex`. -/
theorem index_states_move_forward :
    (∀ cachedir idx fs req req' idx' r,
        cacheReqHandler cachedir idx fs req = some (req', idx', r) →
        ∀ k, stateRank (idx k) ≤ stateRank (idx' k) ∧
          (idx k = AVAILABLE → idx' k = AVAILABLE)) ∧
    (∀ cachedir idx fs resp k,
        stateRank (idx k) ≤
          stateRank ((cacheRespHandler cachedir idx fs resp).1 k) ∧
        (idx k = AVAILABLE →
          (cacheRespHandler cachedir idx fs resp).1 k = AVAILABLE)) ∧
    (∀ tee idx k,
        stateRank (idx k) ≤ stateRank ((teeClose tee idx).2.1 k) ∧
        (idx k = AVAILABLE → (teeClose tee idx).2.1 k = AVAILABLE)) ∧
    (∀ store store' idx', cacheInit store = some (store', idx') →
        ∀ k, stateRank (emptyIndex k) ≤ stateRank (idx' k) ∧
          (emptyIndex k = AVAILABLE → idx' k = AVAILABLE)) := by
  refine ⟨?_, ?_, ?_, ?_⟩
  · intro cachedir idx fs req req' idx' r h k
    exact cacheReqHandler_index_monotone cachedir idx fs req req' idx' r h k
  · intro cachedir idx fs resp k
    rw [cacheRespHandler_index_unchanged]
    exact ⟨Nat.le_refl _, fun hv => hv⟩
  · intro tee idx k
    have : (teeClose tee idx).2.1 = markAvailable idx tee.shaname := rfl
    rw [this]
    by_cases hk : k = tee.shaname
    · have hupd : markAvailable idx tee.shaname k = AVAILABLE := by
        simp [markAvailable, updateIndex, hk]
      rw [hupd]
      have : stateRank AVAILABLE = 2 := by simp [stateRank]
      rw [this]
      exact ⟨stateRank_le_two _, fun _ => rfl⟩
    · have hupd : markAvailable idx tee.shaname k = idx k := by
        simp [markAvailable, updateIndex, hk]
      rw [hupd]
      exact ⟨Nat.le_refl _, fun hv => hv⟩
  · intro store store' idx' _ k
    have : stateRank (emptyIndex k) = 0 := by simp [emptyIndex, stateRank, EMPTY,
      AVAILABLE, IN_PROGRESS]
    rw [this]
    refine ⟨Nat.zero_le _, fun hv => ?_⟩
    exact absurd hv (by simp [emptyIndex, EMPTY, AVAILABLE])

/-- Witness for C3: the concrete run of the Request Gate on the fresh key
"abc123" moves that key forward. -/
theorem index_states_move_forward_witness :
    stateRank (emptyIndex "abc123") ≤
      stateRank ((updateIndex emptyIndex "abc123" IN_PROGRESS) "abc123") ∧
    (emptyIndex "abc123" = AVAILABLE →
      (updateIndex emptyIndex "abc123" IN_PROGRESS) "abc123" = AVAILABLE) :=
  index_states_move_forward.1 "/tmp/proxy/" emptyIndex fsEmptyW reqW reqW
    (updateIndex emptyIndex "abc123" IN_PROGRESS) none rfl "abc123"

/-- Claim C4: for every call to the Fetch-and-Persist Writer's Read, the byte
count, the bytes placed in the caller's buffer, and the error are exactly
those returned by the wrapped body's Read (for every outcome of the file
write); the bytes actually read are appended to the backing file — in full
when the write succeeds, as the written prefix in general; and a failure of
the file write changes neither the bytes nor the count nor the error returned
to the consumer. -/
theorem teeRead_forwards_verbatim (tee : TeeReaderState) (chunk : List Nat)
    (err : Option String) (diskN : Nat) (diskErr : Bool) :
    (teeRead tee chunk err diskN diskErr).2 = (chunk.length, chunk, err) ∧
    (teeRead tee chunk err diskN diskErr).1.fileContents
        = tee.fileContents ++ chunk.take diskN ∧
    (diskN = chunk.length →
      (teeRead tee chunk err diskN diskErr).1.fileContents
        = tee.fileContents ++ chunk) := by
  refine ⟨?_, ?_, fun hd => ?_⟩
  · unfold teeRead
    by_cases h : chunk.length > 0
    · simp [h]
    · have hnil : chunk = [] := List.eq_nil_of_length_eq_zero (by omega)
      subst hnil
      simp
  · unfold teeRead
    by_cases h : chunk.length > 0
    · simp [h]
    · have hnil : chunk = [] := List.eq_nil_of_length_eq_zero (by omega)
      subst hnil
      simp
  · subst hd
    unfold teeRead
    by_cases h : chunk.length > 0
    · simp [h]
    · have hnil : chunk = [] := List.eq_nil_of_length_eq_zero (by omega)
      subst hnil
      simp

/-- Witness for C4: a read of [10, 20] fully persisted is forwarded verbatim
and lands in the backing file. -/
theorem teeRead_forwards_verbatim_witness :
    (teeRead teeW [10, 20] none 2 false).2 = (2, [10, 20], none) ∧
    (teeRead teeW [10, 20] none 2 false).1.fileContents = [10, 20] :=
  ⟨(teeRead_forwards_verbatim teeW [10, 20] none 2 false).1,
   (teeRead_forwards_verbatim teeW [10, 20] none 2 false).2.2 (by decide)⟩

/-- Claim C5: closing the Fetch-and-Persist Writer closes the backing file and
sets the key's Index state to AVAILABLE, leaving every other key unchanged and
returning no error; this holds unconditionally, in particular also when fewer
bytes were persisted than were read (nbwritten < nbread). -/
theorem teeClose_marks_available (tee : TeeReaderState) (idx : Index) :
    (teeClose tee idx).1.fileClosed = true ∧
    (teeClose tee idx).2.1 tee.shaname = AVAILABLE ∧
    (∀ k, k ≠ tee.shaname → (teeClose tee idx).2.1 k = idx k) ∧
    (teeClose tee idx).2.2 = none ∧
    (tee.nbwritten < tee.nbread →
      (teeClose tee idx).2.1 tee.shaname = AVAILABLE) := by
  refine ⟨rfl, ?_, ?_, rfl, fun _ => ?_⟩
  · simp [teeClose, markAvailable, updateIndex]
  · intro k hk
    simp [teeClose, markAvailable, updateIndex, hk]
  · simp [teeClose, markAvailable, updateIndex]

/-- Witness for C5: closing a writer that persisted 1 of 2 bytes still marks
"abc123" AVAILABLE and leaves the unrelated key "zzz" unchanged. -/
theorem teeClose_marks_available_witness :
    (teeClose teeShortW emptyIndex).2.1 "abc123" = AVAILABLE ∧
    (teeClose teeShortW emptyIndex).2.1 "zzz" = emptyIndex "zzz" :=
  ⟨(teeClose_marks_available teeShortW emptyIndex).2.2.2.2 (by decide),
   (teeClose_marks_available teeShortW emptyIndex).2.2.1 "zzz" (by decide)⟩

/-- Claim C6: for every upstream response whose status is not 200, the
Response Gate returns the response unmodified: no Writer is attached, no file
is created in the Store, and the Index state is left unchanged. -/
theorem respGate_non200_passthrough (cachedir : String) (idx : Index)
    (fs : FS) (resp : Response) (h : resp.statusCode ≠ 200) :
    cacheRespHandler cachedir idx fs resp = (idx, fs, resp) := by
  unfold cacheRespHandler
  simp [h]

/-- Witness for C6: a 404 upstream response for the cacheable key "abc123"
passes through without touching the Index or the Store. -/
theorem respGate_non200_passthrough_witness :
    cacheRespHandler "/tmp/proxy/" emptyIndex fsEmptyW resp404W =
      (emptyIndex, fsEmptyW, resp404W) :=
  respGate_non200_passthrough "/tmp/proxy/" emptyIndex fsEmptyW resp404W
    (by decide)

/-- Claim C7: if constructing the Fetch-and-Persist Writer fails because the
backing file cannot be created, the Response Gate returns the response with
its original, unwrapped body and an unchanged file system, and the key's
Index state is left at IN_PROGRESS. -/
theorem respGate_create_failure_fallback (cachedir : String) (idx : Index)
    (fs : FS) (resp : Response) (shaname : String)
    (h200 : resp.statusCode = 200)
    (hsha : shouldBeCached resp.request.urlPath = shaname) (hne : shaname ≠ "")
    (hip : idx shaname = IN_PROGRESS)
    (hfail : fs.createFails (cachedir ++ shaname) = true) :
    cacheRespHandler cachedir idx fs resp = (idx, fs, resp) ∧
    idx shaname = IN_PROGRESS := by
  refine ⟨?_, hip⟩
  unfold cacheRespHandler newCacheTeeReader fsCreate
  rw [hsha]
  simp [h200, hne, hip, hfail, AVAILABLE, IN_PROGRESS]

/-- Witness for C7: with file creation failing for "abc123" the 200 response
keeps its original body and the key stays IN_PROGRESS. -/
theorem respGate_create_failure_fallback_witness :
    cacheRespHandler "/tmp/proxy/" idxProgW fsCreateFailW resp200W =
      (idxProgW, fsCreateFailW, resp200W) ∧
    idxProgW "abc123" = IN_PROGRESS :=
  respGate_create_failure_fallback "/tmp/proxy/" idxProgW fsCreateFailW
    resp200W "abc123" (by decide) (by decide) (by decide) (by decide)
    (by decide)

/-- Claim C8: marking a key AVAILABLE is idempotent: applying the Index update
performed at Writer Close twice yields the same Index as applying it once,
with the key's state AVAILABLE and every other key's state unchanged. -/
theorem markAvailable_idempotent (idx : Index) (k : String) :
    markAvailable (markAvailable idx k) k = markAvailable idx k ∧
    markAvailable idx k k = AVAILABLE ∧
    (∀ q, q ≠ k → markAvailable idx k q = idx q) := by
  refine ⟨funext fun q => ?_, ?_, fun q hq => ?_⟩
  · by_cases hq : q = k
    · simp [markAvailable, updateIndex, hq]
    · simp [markAvailable, updateIndex, hq]
  · simp [markAvailable, updateIndex]
  · simp [markAvailable, updateIndex, hq]

/-- Witness for C8: evaluating the double and single updates on "abc123" at
the points "zzz" and "abc123". -/
theorem markAvailable_idempotent_witness :
    markAvailable (markAvailable emptyIndex "abc123") "abc123" "zzz" =
      markAvailable emptyIndex "abc123" "zzz" ∧
    markAvailable emptyIndex "abc123" "abc123" = AVAILABLE ∧
    markAvailable emptyIndex "abc123" "zzz" = emptyIndex "zzz" :=
  ⟨congrFun (markAvailable_idempotent emptyIndex "abc123").1 "zzz",
   (markAvailable_idempotent emptyIndex "abc123").2.1,
   (markAvailable_idempotent emptyIndex "abc123").2.2 "zzz" (by decide)⟩

/-- Claim C9: after the startup scan, if the Store directory was absent it has
been created and the Index contains no entries; otherwise the Index maps
exactly each file name present in the Store directory to AVAILABLE (and all
other keys to EMPTY); a failure to create the missing directory or to
enumerate it terminates the process (modelled as `none`). -/
theorem startup_scan_correct (store : StoreDir) :
    (store.dirExists = false → store.mkdirFails = false →
      store.readDirFails = false →
      cacheInit store =
        some ({ store with dirExists := true, entries := ([] : List String) },
          loadIndex ([] : List String)) ∧
      (∀ k, loadIndex ([] : List String) k = EMPTY)) ∧
    (store.dirExists = true → store.readDirFails = false →
      cacheInit store = some (store, loadIndex store.entries) ∧
      (∀ k, k ∈ store.entries → loadIndex store.entries k = AVAILABLE) ∧
      (∀ k, k ∉ store.entries → loadIndex store.entries k = EMPTY)) ∧
    (store.dirExists = false → store.mkdirFails = true →
      cacheInit store = none) ∧
    (store.readDirFails = true → cacheInit store = none) := by
  refine ⟨fun h1 h2 h3 => ⟨?_, fun k => ?_⟩,
          fun h1 h2 => ⟨?_, fun k hk => ?_, fun k hk => ?_⟩,
          fun h1 h2 => ?_, fun h1 => ?_⟩
  · unfold cacheInit
    simp [h1, h2, h3]
  · rw [loadIndex_spec]
    simp
  · unfold cacheInit
    simp [h1, h2]
  · rw [loadIndex_spec]
    simp [hk]
  · rw [loadIndex_spec]
    simp [hk]
  · unfold cacheInit
    simp [h1, h2]
  · unfold cacheInit
    by_cases hd : store.dirExists = true
    · simp [hd, h1]
    · simp only [Bool.not_eq_true] at hd
      by_cases hm : store.mkdirFails = true
      · simp [hd, hm]
      · simp only [Bool.not_eq_true] at hm
        simp [hd, hm, h1]

/-- Witness for C9: a present Store directory holding "abc123" and "def456"
yields an Index that is AVAILABLE exactly on those names. -/
theorem startup_scan_correct_witness :
    cacheInit storePresentW = some (storePresentW, loadIndex storePresentW.entries) ∧
    loadIndex storePresentW.entries "abc123" = AVAILABLE ∧
    loadIndex storePresentW.entries "zzz" = EMPTY :=
  ⟨((startup_scan_correct storePresentW).2.1 rfl rfl).1,
   ((startup_scan_correct storePresentW).2.1 rfl rfl).2.1 "abc123" (by decide),
   ((startup_scan_correct storePresentW).2.1 rfl rfl).2.2 "zzz" (by decide)⟩

/-- Claim C10: when a Request Gate call on an AVAILABLE key fails to open or
stat the backing file, it returns no response (the request proceeds upstream)
while leaving the key's Index state unchanged at AVAILABLE; the Response Gate
for the fallback fetch then observes AVAILABLE and does not attach a Writer,
so the refetched bytes are never persisted (file system unchanged) and the
broken entry remains AVAILABLE. -/
theorem brokenAvailable_fallback_not_persisted (cachedir : String)
    (idx : Index) (fs : FS) (req : Request) (resp : Response) (shaname : String)
    (hsha : shouldBeCached req.urlPath = shaname) (hne : shaname ≠ "")
    (havail : idx shaname = AVAILABLE)
    (hfail : fsOpen fs (cachedir ++ shaname) = none ∨
      fsStat fs (cachedir ++ shaname) = none)
    (hreq : resp.request = req) (h200 : resp.statusCode = 200) :
    cacheReqHandler cachedir idx fs req = some (req, idx, none) ∧
    idx shaname = AVAILABLE ∧
    cacheRespHandler cachedir idx fs resp = (idx, fs, resp) := by
  refine ⟨?_, havail, ?_⟩
  · unfold cacheReqHandler
    rw [hsha]
    rcases hfail with hopen | hstat
    · simp [hne, havail, hopen, AVAILABLE, IN_PROGRESS]
    · rcases hop : fsOpen fs (cachedir ++ shaname) with _ | contents
      · simp [hne, havail, hop, AVAILABLE, IN_PROGRESS]
      · simp [hne, havail, hop, hstat, AVAILABLE, IN_PROGRESS]
  · unfold cacheRespHandler
    rw [hreq, hsha]
    simp [h200, hne, havail]

/-- Witness for C10: the key "abc123" is AVAILABLE but its backing file is
missing; the request falls through with the entry still AVAILABLE and the
fallback 200 response is not wrapped. -/
theorem brokenAvailable_fallback_not_persisted_witness :
    cacheReqHandler "/tmp/proxy/" idxAvailW fsEmptyW reqW =
      some (reqW, idxAvailW, none) ∧
    idxAvailW "abc123" = AVAILABLE ∧
    cacheRespHandler "/tmp/proxy/" idxAvailW fsEmptyW resp200W =
      (idxAvailW, fsEmptyW, resp200W) :=
  brokenAvailable_fallback_not_persisted "/tmp/proxy/" idxAvailW fsEmptyW
    reqW resp200W "abc123" (by decide) (by decide) (by decide)
    (Or.inl (by decide)) rfl (by decide)

end GoproxyCache
